import Mathlib

/-!
Shallow embedding of the matching-and-lifecycle core of the PulseConnect
application (a blood/plasma donation coordinator).  The store tables
(`requests`, `appointments`, `notifications`) are modelled as Lean lists of
records; a supabase `update ... eq(field, v)` call is modelled as a `List.map`
that rewrites every row whose key matches, an `insert` as an append, and a
`select ... eq ... order` read as a filter followed by a sort.  Status values
are kept as the literal strings the source writes (the source uses two
vocabularies: lowercase statuses on the donor side, capitalised ones on the
hospital side).  Timestamps are naturals (milliseconds, as in `Date.now()`);
the calendar dates of the appointment form are naturals counting days.
-/

namespace PulseConnect

/-- A row of the `requests` table, with the fields read or written by
`DonorRequestCard.tsx` (donor side), `RequestsList.tsx` and
`AppointmentForm.tsx` (hospital side). -/
structure RequestRow where
  id : Nat
  hospital_id : Nat
  type : String
  blood_group : String
  units : Nat
  urgency : String
  patient_name : String
  location : String
  donor_id : Option Nat
  status : String
  created_at : Nat
  updated_at : Nat
deriving DecidableEq

/-- A row of the `appointments` table.  `DonorRequestCard.handleAccept` inserts
rows carrying `appointment_time` and no form fields; `AppointmentForm.handleSubmit`
inserts rows carrying `donation_type`, `hospital_contact` and `notes` and no
`appointment_time`; the fields the respective insert omits are `none`. -/
structure AppointmentRow where
  request_id : Option Nat
  hospital_id : Nat
  donor_id : Nat
  appointment_date : Nat
  appointment_time : Option String
  donation_type : Option String
  hospital_contact : Option String
  notes : Option String
  status : String
deriving DecidableEq

/-- A row of the `notifications` table (`NotificationSystem.tsx`; inserts come
from `DonorRequestCard.handleAccept` and `AppointmentForm.sendNotificationToDonor`).
The source field named `type` is called `ntype` here to keep it apart from the
request field of the same name. -/
structure NotificationRow where
  id : Nat
  user_id : Nat
  user_type : Option String
  title : String
  message : String
  ntype : String
  is_read : Bool
  created_at : Nat
deriving DecidableEq

/-- The persistent store state the donor-side and hospital-side handlers touch. -/
structure Db where
  requests : List RequestRow
  appointments : List AppointmentRow
  notifications : List NotificationRow
deriving DecidableEq

/-- Model of `DonorRequestCard.handleAccept`.  The request update is keyed only
on the row id column, with no condition on the prior status, so it rewrites the
row whatever state it is in.  On update success it inserts an
appointment dated 24 hours ahead at time "10:00 AM" in status "scheduled", and
a notification to the hospital; an appointment-insert error is only logged
(`console.error`) and does not undo the request update.  `updateFails` and
`apptFails` model the store reporting an error on the respective call; `nid`
is the store-assigned id of the inserted notification. -/
def handleAccept (db : Db) (req : RequestRow) (donorId now nid : Nat)
    (updateFails apptFails : Bool) : Db :=
  if updateFails then db else
  let requests := db.requests.map fun r =>
    if r.id = req.id then
      { r with donor_id := some donorId, status := "accepted", updated_at := now }
    else r
  let apptRow : AppointmentRow :=
    { request_id := some req.id, hospital_id := req.hospital_id,
      donor_id := donorId, appointment_date := now + 24 * 60 * 60 * 1000,
      appointment_time := some "10:00 AM", donation_type := none,
      hospital_contact := none, notes := none, status := "scheduled" }
  let notifRow : NotificationRow :=
    { id := nid, user_id := req.hospital_id,
      user_type := some "hospital", title := "Request Accepted",
      message := "Your " ++ req.type ++ " request for " ++ req.blood_group ++
        " has been accepted by a donor.",
      ntype := "request", is_read := false, created_at := now }
  let appointments := if apptFails then db.appointments else db.appointments ++ [apptRow]
  let notifications := db.notifications ++ [notifRow]
  { requests := requests, appointments := appointments, notifications := notifications }

/-- Model of `DonorRequestCard.handleIgnore`.  Like `handleAccept`, the update is keyed
only on the row id: it writes `donor_id` and `status := "ignored"` into the
shared request row itself, with no condition on the prior status. -/
def handleIgnore (db : Db) (req : RequestRow) (donorId now : Nat)
    (updateFails : Bool) : Db :=
  if updateFails then db else
  { db with requests := db.requests.map fun r =>
      if r.id = req.id then
        { r with donor_id := some donorId, status := "ignored", updated_at := now }
      else r }

/-- Model of `RequestsList.updateRequestStatus`: writes the given status string into the
matching request row, unconditionally. -/
def updateRequestStatus (requests : List RequestRow) (requestId : Nat)
    (status : String) : List RequestRow :=
  requests.map fun r => if r.id = requestId then { r with status := status } else r

/-- The state of the controlled inputs of `AppointmentForm`.  The `date` field
is a calendar day number (the date picker works at day granularity). -/
structure AppointmentFormData where
  date : Nat
  time : String
  hospitalContact : String
  notes : String
  donationType : String
deriving DecidableEq

/-- Model of `AppointmentForm.getMinDate`: today. -/
def getMinDate (today : Nat) : Nat := today

/-- Model of `AppointmentForm.getMaxDate`: 30 days from now. -/
def getMaxDate (today : Nat) : Nat := today + 30

/-- The constraint the date input of the form imposes: its JSX carries
`min = getMinDate()` and `max = getMaxDate()`, so a date outside
today .. today+30 fails the constraint validation of the input and the form
refuses to submit. -/
def dateInputAccepts (today d : Nat) : Bool :=
  decide (getMinDate today ≤ d) && decide (d ≤ getMaxDate today)

/-- Outcome of a submission attempt of the appointment form. -/
inductive SubmitOutcome
  | validationFailed
  | storeError
  | scheduled
deriving DecidableEq

/-- Millisecond timestamp of a form day number.  The source composes a Date
value from the date and time fields; the time-of-day component is not
modelled, since only the presence of the inserted row and its other fields
matter here. -/
def formDateMillis (day : Nat) : Nat := day * 86400000

/-- Model of `AppointmentForm.handleSubmit` together with the form controls
that gate it: the date must pass the min/max constraint of the input (see
`dateInputAccepts`) and the required date/time/contact fields must be non-empty
(`handleSubmit` itself returns early when they are missing).  Past validation,
it inserts an appointment row in status "pending", and then, when a `requestId`
was supplied, unconditionally updates the status of that request to
"Scheduled" — there is no check of the current status of the request anywhere
on this path.  `apptFails` and
`requestUpdateFails` model store errors on the two calls; an error is thrown,
so a request-update error still leaves the already inserted appointment. -/
def appointmentFormSubmit (db : Db) (today : Nat) (fd : AppointmentFormData)
    (donorId hospitalId : Nat) (requestId : Option Nat)
    (apptFails requestUpdateFails : Bool) : SubmitOutcome × Db :=
  if dateInputAccepts today fd.date = false ∨ fd.time = "" ∨ fd.hospitalContact = "" then
    (SubmitOutcome.validationFailed, db)
  else if apptFails then
    (SubmitOutcome.storeError, db)
  else
    let apptRow : AppointmentRow :=
      { request_id := requestId, hospital_id := hospitalId, donor_id := donorId,
        appointment_date := formDateMillis fd.date, appointment_time := none,
        donation_type := some fd.donationType,
        hospital_contact := some fd.hospitalContact, notes := some fd.notes,
        status := "pending" }
    let db1 : Db := { db with appointments := db.appointments ++ [apptRow] }
    match requestId with
    | none => (SubmitOutcome.scheduled, db1)
    | some rid =>
      if requestUpdateFails then (SubmitOutcome.storeError, db1)
      else (SubmitOutcome.scheduled,
        { db1 with requests := updateRequestStatus db1.requests rid "Scheduled" })

/-- The compatibility table of `Dashboard.tsx` (`compat` record inside the
`compatible` closure): maps a donor blood group to the list of recipient
groups it may donate to; unknown keys fall back to the empty list
(`compat[donorType] || []`). -/
def compat (donorType : String) : List String :=
  if donorType = "O-" then ["O-", "O+", "A-", "A+", "B-", "B+", "AB-", "AB+"]
  else if donorType = "O+" then ["O+", "A+", "B+", "AB+"]
  else if donorType = "A-" then ["A-", "A+", "AB-", "AB+"]
  else if donorType = "A+" then ["A+", "AB+"]
  else if donorType = "B-" then ["B-", "B+", "AB-", "AB+"]
  else if donorType = "B+" then ["B+", "AB+"]
  else if donorType = "AB-" then ["AB-", "AB+"]
  else if donorType = "AB+" then ["AB+"]
  else []

/-- Model of the closure `compatible(donorType, patientType)` of
`Dashboard.tsx`: membership of patientType in the compat row of donorType. -/
def compatible (donorType patientType : String) : Bool :=
  (compat donorType).contains patientType

/-- The 8 ABO/Rh blood groups (fixed domain data). -/
def bloodGroups : List String := ["O-", "O+", "A-", "A+", "B-", "B+", "AB-", "AB+"]

/-- An entry of the hospital dashboard blood inventory
(`HospitalDashboard.tsx`, `BloodType` interface). -/
structure BloodType where
  type : String
  units : Int
deriving DecidableEq

/-- Model of `HospitalDashboard.handleQuickUpdate`: adds `change` to the
matching counter, clamped from below at 0 by `Math.max(0, blood.units + change)`. -/
def handleQuickUpdate (inv : List BloodType) (t : String) (change : Int) :
    List BloodType :=
  inv.map fun b => if b.type = t then { b with units := max 0 (b.units + change) } else b

/-- Model of `HospitalDashboard.handleEditSave`: writes `tempValue` into the
matching counter directly (a set, not an increment or decrement). -/
def handleEditSave (inv : List BloodType) (t : String) (tempValue : Int) :
    List BloodType :=
  inv.map fun b => if b.type = t then { b with units := tempValue } else b

/-- A sequence of quick-update operations (blood type, signed change) applied
left to right. -/
def applyQuickUpdates (inv : List BloodType) : List (String × Int) → List BloodType
  | [] => inv
  | op :: ops => applyQuickUpdates (handleQuickUpdate inv op.1 op.2) ops

/-- Every counter of the inventory is non-negative. -/
def allNonneg (inv : List BloodType) : Prop := ∀ b ∈ inv, 0 ≤ b.units

instance : DecidablePred allNonneg := fun inv => List.decidableBAll _ inv

/-- Model of `NotificationSystem.markAsRead`: sets the read flag of the matching
notification (both the store update keyed on `id` and the local-state map
rewrite the row the same way). -/
def markAsRead (ns : List NotificationRow) (notificationId : Nat) :
    List NotificationRow :=
  ns.map fun n => if n.id = notificationId then { n with is_read := true } else n

/-- Forgets the read flag of a notification, for stating that `markAsRead`
changes nothing else. -/
def eraseReadFlag (n : NotificationRow) : NotificationRow := { n with is_read := false }

/-- The presentation order of the notification list: newer (larger
`created_at`) first. -/
def newerFirst (a b : NotificationRow) : Prop := b.created_at ≤ a.created_at

instance : DecidableRel newerFirst := fun _ _ => Nat.decLe _ _

instance : IsTotal NotificationRow newerFirst := ⟨fun _ _ => Nat.le_total _ _⟩

instance : IsTrans NotificationRow newerFirst := ⟨fun _ _ _ hab hbc => le_trans hbc hab⟩

/-- Model of `NotificationSystem.fetchNotifications`: the store read that
selects the rows whose user_id matches and orders them by created_at
descending, modelled as a filter on the user id followed by a sort placing
larger `created_at` first. -/
def fetchNotifications (db : List NotificationRow) (userId : Nat) :
    List NotificationRow :=
  List.insertionSort newerFirst (db.filter fun n => n.user_id == userId)

/-! Concrete sample rows and states used as inputs of the claim-specific
counterexamples and witnesses below. -/

/-- A request that has already been resolved: donor 7 accepted it. -/
def sampleAcceptedRequest : RequestRow :=
  { id := 1, hospital_id := 5, type := "blood", blood_group := "B+", units := 2,
    urgency := "High", patient_name := "Asha", location := "Ward 3",
    donor_id := some 7, status := "accepted", created_at := 0, updated_at := 0 }

/-- A request still pending on the hospital side (capitalised vocabulary). -/
def samplePendingRequest : RequestRow :=
  { id := 1, hospital_id := 5, type := "blood", blood_group := "B+", units := 2,
    urgency := "High", patient_name := "Asha", location := "Ward 3",
    donor_id := none, status := "Pending", created_at := 0, updated_at := 0 }

/-- A request still pending on the donor side (lowercase vocabulary). -/
def samplePendingRequestLower : RequestRow :=
  { samplePendingRequest with status := "pending" }

def dbAccepted1 : Db :=
  { requests := [sampleAcceptedRequest], appointments := [], notifications := [] }

def dbAccepted2 : Db :=
  { requests := [sampleAcceptedRequest], appointments := [], notifications := [] }

def dbPendingUpper : Db :=
  { requests := [samplePendingRequest], appointments := [], notifications := [] }

def dbPendingLower : Db :=
  { requests := [samplePendingRequestLower], appointments := [], notifications := [] }

/-- Valid appointment-form input for day 100. -/
def sampleFormData : AppointmentFormData :=
  { date := 100, time := "10:00", hospitalContact := "555-0101", notes := "",
    donationType := "blood" }

/-- Appointment-form input dated 40 days past day 10. -/
def lateFormData : AppointmentFormData :=
  { date := 50, time := "10:00", hospitalContact := "555-0101", notes := "",
    donationType := "blood" }

def sampleInventory : List BloodType :=
  [{ type := "A+", units := 5 }, { type := "O-", units := 0 }]

def sampleInventoryOps : List (String × Int) := [("A+", -10), ("O-", 1), ("A+", 1)]

end PulseConnect

namespace PulseConnect

/-! Helper lemmas shared across claims. -/

/-- One quick update keeps every counter non-negative: touched counters become
`max 0 _` and untouched counters keep their old value. -/
theorem handleQuickUpdate_preserves_nonneg (inv : List BloodType) (t : String)
    (change : Int) (h : allNonneg inv) : allNonneg (handleQuickUpdate inv t change) := by
  intro b hb
  rcases List.mem_map.mp hb with ⟨a, ha, rfl⟩
  by_cases hat : a.type = t
  · simp [hat, le_max_left]
  · simp only [hat, if_neg, ite_false]
    exact h a ha

/-! Theorems settling the claims. -/

/-- C1: the claim asserts `accept` is a compare-and-set on `status == Pending`
that fails with AlreadyResolved on any non-Pending request.  The update in the
code is keyed only on the row id, with no status condition: on a request already
accepted by donor 7, a second accept by donor 9 succeeds and overwrites the
assigned donor, instead of failing and leaving the record unchanged. -/
theorem accept_unconditional_update_overwrites :
    sampleAcceptedRequest.status = "accepted" ∧
    (handleAccept dbAccepted1 sampleAcceptedRequest 9 1000 20 false false).requests =
      [{ sampleAcceptedRequest with donor_id := some 9, updated_at := 1000 }] ∧
    (handleAccept dbAccepted1 sampleAcceptedRequest 9 1000 20 false false).requests ≠
      dbAccepted1.requests := by
  decide

/-- C2: the claim asserts `schedule` moves a request to Scheduled only from
Accepted and otherwise fails with InvalidTransition.  The schedule path of the
code (`AppointmentForm.handleSubmit`) updates the status to "Scheduled" keyed only
on the row id: submitting a valid form against a request whose status is
"Pending" succeeds and moves it straight to "Scheduled", skipping Accepted,
with no InvalidTransition failure anywhere. -/
theorem schedule_from_pending_succeeds :
    samplePendingRequest.status = "Pending" ∧
    (appointmentFormSubmit dbPendingUpper 100 sampleFormData 9 5 (some 1) false false).1 =
      SubmitOutcome.scheduled ∧
    ((appointmentFormSubmit dbPendingUpper 100 sampleFormData 9 5 (some 1) false false).2).requests =
      [{ samplePendingRequest with status := "Scheduled" }] := by
  decide

/-- C3 counterexample: the claim asserts `ignore` is per-donor and does not
change the shared request record, and that after an accept it is a no-op on
shared state.  On a request already accepted by donor 7, an ignore by donor 9
rewrites the shared row: status becomes "ignored" (it was "accepted") and
`donor_id` becomes 9. -/
theorem ignore_changes_shared_status_cex :
    (handleIgnore dbAccepted2 sampleAcceptedRequest 9 1000 false).requests =
      [{ sampleAcceptedRequest with
          donor_id := some 9, status := "ignored", updated_at := 1000 }] ∧
    ((handleIgnore dbAccepted2 sampleAcceptedRequest 9 1000 false).requests ≠
      dbAccepted2.requests) ∧
    sampleAcceptedRequest.status = "accepted" := by
  decide

/-- C3 amended: `ignore(requestId, donorId)` is a shared-state action: it
unconditionally writes status "ignored", the id of the ignoring donor and the
update timestamp into the matching request row (for every viewer, and overwriting a
prior accept), leaves every other request row unchanged, and touches neither
appointments nor notifications. -/
theorem ignore_sets_shared_ignored (db : Db) (req : RequestRow) (d now i : Nat)
    (r : RequestRow) (hr : db.requests[i]? = some r) :
    (r.id = req.id → (handleIgnore db req d now false).requests[i]? =
      some { r with
              donor_id := some d, status := "ignored", updated_at := now }) ∧
    (r.id ≠ req.id → (handleIgnore db req d now false).requests[i]? = some r) ∧
    (handleIgnore db req d now false).appointments = db.appointments ∧
    (handleIgnore db req d now false).notifications = db.notifications := by
  refine ⟨fun hid => ?_, fun hid => ?_, rfl, rfl⟩ <;>
    simp [handleIgnore, List.getElem?_map, hr, hid]

/-- C3 witness: the amended theorem applied to a one-row store whose request
was already accepted: the row is rewritten to "ignored" with donor 9, and
appointments and notifications are untouched. -/
theorem ignore_sets_shared_ignored_witness :
    (handleIgnore dbAccepted2 sampleAcceptedRequest 9 1000 false).requests[0]? =
      some { sampleAcceptedRequest with
              donor_id := some 9, status := "ignored", updated_at := 1000 } ∧
    (handleIgnore dbAccepted2 sampleAcceptedRequest 9 1000 false).appointments =
      dbAccepted2.appointments ∧
    (handleIgnore dbAccepted2 sampleAcceptedRequest 9 1000 false).notifications =
      dbAccepted2.notifications :=
  ⟨(ignore_sets_shared_ignored dbAccepted2 sampleAcceptedRequest 9 1000 0
      sampleAcceptedRequest (by decide)).1 rfl,
   (ignore_sets_shared_ignored dbAccepted2 sampleAcceptedRequest 9 1000 0
      sampleAcceptedRequest (by decide)).2.2.1,
   (ignore_sets_shared_ignored dbAccepted2 sampleAcceptedRequest 9 1000 0
      sampleAcceptedRequest (by decide)).2.2.2⟩

/-- C4: the donor-to-recipient compatibility filter accepts donors of all 8
ABO/Rh groups for a recipient of group AB+, and only O- donors for a recipient
of group O-. -/
theorem compatibility_ABpos_universal_Oneg_exclusive :
    bloodGroups.filter (fun g => compatible g "AB+") = bloodGroups ∧
    bloodGroups.filter (fun g => compatible g "O-") = ["O-"] := by
  decide

/-- C5: a scheduling attempt whose date is before today or more than 30 days
ahead fails validation (the min/max constraint of the date input, `getMinDate`
and `getMaxDate`), and the store is left exactly as it was: no appointment row is
inserted and no request status changes. -/
theorem schedule_rejects_out_of_window (db : Db) (today : Nat)
    (fd : AppointmentFormData) (donorId hospitalId : Nat) (requestId : Option Nat)
    (apptFails requestUpdateFails : Bool)
    (h : fd.date < getMinDate today ∨ getMaxDate today < fd.date) :
    appointmentFormSubmit db today fd donorId hospitalId requestId
      apptFails requestUpdateFails = (SubmitOutcome.validationFailed, db) := by
  have hd : dateInputAccepts today fd.date = false := by
    simp only [dateInputAccepts, getMinDate, getMaxDate] at h ⊢
    rcases h with h | h <;> simp <;> omega
  simp [appointmentFormSubmit, hd]

/-- C5 witness: on day 10, a form dated day 50 (40 days ahead) is rejected and
the store is unchanged. -/
theorem schedule_rejects_out_of_window_witness :
    appointmentFormSubmit dbPendingUpper 10 lateFormData 9 5 (some 1) false false =
      (SubmitOutcome.validationFailed, dbPendingUpper) :=
  schedule_rejects_out_of_window dbPendingUpper 10 lateFormData 9 5 (some 1)
    false false (Or.inr (by decide))

/-- C6: any sequence of quick-update increments and decrements applied to an
inventory whose counters are all non-negative leaves every counter
non-negative (each step clamps at 0, so no step can drive a counter below). -/
theorem inventory_nonneg_after_quick_updates (inv : List BloodType)
    (ops : List (String × Int)) (h : allNonneg inv) :
    allNonneg (applyQuickUpdates inv ops) := by
  induction ops generalizing inv with
  | nil => exact h
  | cons op ops ih =>
    exact ih (handleQuickUpdate inv op.1 op.2)
      (handleQuickUpdate_preserves_nonneg inv op.1 op.2 h)

/-- C6 witness: a concrete sequence containing an over-large decrement still
leaves every counter non-negative. -/
theorem inventory_nonneg_after_quick_updates_witness :
    allNonneg (applyQuickUpdates sampleInventory sampleInventoryOps) :=
  inventory_nonneg_after_quick_updates sampleInventory sampleInventoryOps (by decide)

/-- C7 counterexample: the claim asserts a decrement that would go below zero
is rejected and leaves the counter unchanged.  With the O+ counter at 2, a
decrement by 5 succeeds and sets the counter to 0 (Math.max clamping), so the
counter does not stay at 2 and nothing is rejected. -/
theorem consume_below_zero_clamped_cex :
    handleQuickUpdate [{ type := "O+", units := 2 }] "O+" (-5) =
      [{ type := "O+", units := 0 }] ∧
    handleQuickUpdate [{ type := "O+", units := 2 }] "O+" (-5) ≠
      [{ type := "O+", units := 2 }] := by
  decide

/-- C7 amended: a decrement that would take a counter below zero is silently
clamped: the operation succeeds and the matching counter becomes exactly 0
(rather than being rejected with the counter left unchanged). -/
theorem quick_update_clamps_at_zero (inv : List BloodType) (t : String)
    (change : Int) (i : Nat) (b : BloodType) (hb : inv[i]? = some b)
    (ht : b.type = t) (hneg : b.units + change < 0) :
    (handleQuickUpdate inv t change)[i]? = some { b with units := 0 } := by
  have h1 : (handleQuickUpdate inv t change)[i]? = (inv[i]?).map
      fun x => if x.type = t then { x with units := max 0 (x.units + change) } else x := by
    simp [handleQuickUpdate]
  rw [h1, hb, Option.map_some', if_pos ht, max_eq_left hneg.le]

/-- C7 witness: the amended theorem at the O+ counter standing at 3 under a
decrement by 7: the counter is clamped to 0. -/
theorem quick_update_clamps_at_zero_witness :
    (handleQuickUpdate [{ type := "O+", units := 3 }] "O+" (-7))[0]? =
      some { type := "O+", units := 0 } :=
  quick_update_clamps_at_zero [{ type := "O+", units := 3 }] "O+" (-7) 0
    { type := "O+", units := 3 } (by decide) rfl (by decide)

/-- C8: marking a notification read twice yields the same list as marking it
once, and marking read changes no field other than the read flag (erasing the
read flag of every row gives back the original rows, in order). -/
theorem markAsRead_idempotent_readonly (ns : List NotificationRow) (i : Nat) :
    markAsRead (markAsRead ns i) i = markAsRead ns i ∧
    (markAsRead ns i).map eraseReadFlag = ns.map eraseReadFlag := by
  constructor
  · induction ns with
    | nil => rfl
    | cons n t ih =>
      simp only [markAsRead, List.map_cons] at ih ⊢
      by_cases h : n.id = i <;> simp [h, ih]
  · induction ns with
    | nil => rfl
    | cons n t ih =>
      simp only [markAsRead, eraseReadFlag, List.map_cons] at ih ⊢
      by_cases h : n.id = i <;> simp [h, ih]

/-- C9: the notification list fetched for a user is exactly (as a multiset,
hence also as a set) the stored notifications whose user id matches, ordered
newest-first by creation timestamp. -/
theorem notifications_exact_and_newest_first (db : List NotificationRow) (uid : Nat) :
    List.Perm (fetchNotifications db uid) (db.filter fun n => n.user_id == uid) ∧
    (∀ n, n ∈ fetchNotifications db uid ↔ n ∈ db ∧ n.user_id = uid) ∧
    List.Pairwise newerFirst (fetchNotifications db uid) := by
  refine ⟨List.perm_insertionSort _ _, fun n => ?_, List.sorted_insertionSort _ _⟩
  rw [fetchNotifications]
  rw [(List.perm_insertionSort newerFirst _).mem_iff, List.mem_filter]
  simp

/-- C10: a donor-side accept whose request update succeeds immediately inserts
an appointment in status "scheduled", dated exactly 24 hours (in milliseconds)
after the accept, at time "10:00 AM", with no hospital scheduling involved;
and when the appointment insert fails, no appointment appears but the request
update stands exactly as in the successful case (the accept is not undone). -/
theorem accept_creates_scheduled_appointment (db : Db) (req : RequestRow)
    (d now nid : Nat) (_hp : req.status = "pending") :
    (handleAccept db req d now nid false false).appointments =
      db.appointments ++
        [{ request_id := some req.id, hospital_id := req.hospital_id,
           donor_id := d, appointment_date := now + 24 * 60 * 60 * 1000,
           appointment_time := some "10:00 AM", donation_type := none,
           hospital_contact := none, notes := none, status := "scheduled" }] ∧
    (handleAccept db req d now nid false true).appointments = db.appointments ∧
    (handleAccept db req d now nid false true).requests =
      (handleAccept db req d now nid false false).requests :=
  ⟨rfl, rfl, rfl⟩

/-- C10 witness: the theorem applied to a one-row store with a pending
request, donor 9, accept time 1000. -/
theorem accept_creates_scheduled_appointment_witness :
    (handleAccept dbPendingLower samplePendingRequestLower 9 1000 20 false false).appointments =
      [{ request_id := some 1, hospital_id := 5,
          donor_id := 9, appointment_date := 1000 + 24 * 60 * 60 * 1000,
          appointment_time := some "10:00 AM", donation_type := none,
          hospital_contact := none, notes := none, status := "scheduled" }] ∧
    (handleAccept dbPendingLower samplePendingRequestLower 9 1000 20 false true).appointments =
      dbPendingLower.appointments ∧
    (handleAccept dbPendingLower samplePendingRequestLower 9 1000 20 false true).requests =
      (handleAccept dbPendingLower samplePendingRequestLower 9 1000 20 false false).requests :=
  accept_creates_scheduled_appointment dbPendingLower samplePendingRequestLower 9 1000 20 rfl

end PulseConnect
